import Mathlib

/-!
Verification of the cross-document validation engine of the `sinapsis`
payment-resolution system (`src/lib/validator.ts`).

The engine takes three already-extracted structured records (invoice
`Factura`, purchase order `OrdenCompra`, goods-receipt acknowledgment
`ActaRecepcion`) and produces an auditable verdict (`APROBADO` / `REPARO`)
together with an itemized list of discrepancies.

Modelling conventions of this shallow embedding:
* JavaScript strings are Lean `String`s; the string-manipulation chains
  (`replace`, `toLowerCase`, `trim`) are modelled on the underlying
  `List Char`.
* A JavaScript number is a `JSNum`: either the `NaN` sentinel or a
  rational value.  The engine only ever compares numbers after guarding
  with `isNaN`, so modelling finite values as `Rat` is faithful.
* The `string | number` union accepted by `limpiarMonto` is `Valor`.
* Each discrepancy message pushed by the validator is one constructor of
  the `Discrepancia` type carrying exactly the values the message cites,
  so message identity and multiplicity are preserved.
* The mutable `discrepancias: string[]` array threaded through the rules
  is modelled by each rule returning the list of messages it appends, in
  push order; the orchestrator concatenates them in rule order.
* `new Date().toISOString()` is modelled by an explicit timestamp
  argument to `validarResolucion`.
-/

namespace Sinapsis

/-- The character class matched by the JavaScript regex `\s`
(restricted to its ASCII members, the ones relevant to the data). -/
def esEspacio (c : Char) : Bool :=
  c = ' ' || c = '\t' || c = '\n' || c = '\r' || c = '\x0B' || c = '\x0C'

/-- `String.prototype.trim()` on the character list: drop whitespace
from the front and from the back. -/
def trimLista (l : List Char) : List Char :=
  ((l.dropWhile esEspacio).reverse.dropWhile esEspacio).reverse

/-- Character-list core of `normalizarRUT`: remove dots
(`replace(/\./g, "")`), hyphens, and whitespace, lowercase, and trim. -/
def normalizarLista (l : List Char) : List Char :=
  trimLista
    ((((l.filter (fun c => c ≠ '.')).filter
        (fun c => c ≠ '-')).filter
        (fun c => !esEspacio c)).map Char.toLower)

/-- `normalizarRUT` (validator.ts lines 35-43): empty input maps to the
empty string (`if (!rut) return ""`, and the empty string is the only
falsy string); otherwise run the cleaning chain. -/
def normalizarRUT (rut : String) : String :=
  if rut = "" then "" else String.mk (normalizarLista rut.toList)

/-- A JavaScript number: either the not-a-number sentinel or a finite
rational value. -/
inductive JSNum where
  | nan : JSNum
  | val : Rat → JSNum
deriving DecidableEq, Repr

/-- The `isNaN` predicate on modelled JavaScript numbers. -/
def esNaN : JSNum → Bool
  | JSNum.nan => true
  | JSNum.val _ => false

/-- The `string | number` input union of `limpiarMonto`. -/
inductive Valor where
  | str : String → Valor
  | num : JSNum → Valor
deriving DecidableEq, Repr

/-- ASCII decimal digit test. -/
def esDigito (c : Char) : Bool := '0' ≤ c && c ≤ '9'

/-- Value of a digit string read most-significant first. -/
def digitosANat (l : List Char) : Nat :=
  l.foldl (fun acc c => 10 * acc + (c.toNat - 48)) 0

/-- Unsigned decimal literal: `digits`, `digits.digits`, `digits.` or
`.digits` (at least one digit overall); anything else is unparseable. -/
def parseDecimal (l : List Char) : Option Rat :=
  let ent := l.takeWhile esDigito
  match l.dropWhile esDigito with
  | [] => if ent.isEmpty then none else some (digitosANat ent)
  | '.' :: frac =>
      if frac.all esDigito && !(ent.isEmpty && frac.isEmpty) then
        some ((digitosANat ent : Rat) + (digitosANat frac : Rat) / ((10 : Rat) ^ frac.length))
      else none
  | _ => none

/-- Model of the JavaScript `Number()` builtin as used by
`limpiarMonto`: the empty string converts to `0`, an optionally signed
decimal literal converts to its value, and every other string converts
to `NaN`.  (The exotic `Number()` forms — hexadecimal, exponent
notation, `Infinity` — cannot survive `limpiarMonto`'s cleaning of
monetary strings in any intended input and are modelled as part of the
unparseable case.) -/
def jsNumber (l : List Char) : JSNum :=
  match l with
  | [] => JSNum.val 0
  | '+' :: resto =>
      match parseDecimal resto with
      | some q => JSNum.val q
      | none => JSNum.nan
  | '-' :: resto =>
      match parseDecimal resto with
      | some q => JSNum.val (-q)
      | none => JSNum.nan
  | _ =>
      match parseDecimal l with
      | some q => JSNum.val q
      | none => JSNum.nan

/-- `limpiarMonto` (validator.ts lines 52-71): a number is returned
unchanged; a string is cleaned (`$`, whitespace and thousands-separator
dots removed, decimal comma turned into a dot, trimmed) and handed to
`Number()`; the final `isNaN(numero) ? NaN : numero` of the source is
the identity and is left implicit. -/
def limpiarMonto (valor : Valor) : JSNum :=
  match valor with
  | Valor.num n => n
  | Valor.str s =>
      jsNumber
        (trimLista
          ((((s.toList.filter (fun c => c ≠ '$')).filter
              (fun c => !esEspacio c)).filter
              (fun c => c ≠ '.')).map
              (fun c => if c = ',' then '.' else c)))

/-- `tieneDato` (validator.ts lines 76-81) specialized to the string
fields it is applied to: non-empty after trimming. -/
def tieneDato (valor : String) : Bool :=
  decide (0 < (trimLista valor.toList).length)

/-- Invoice record (`FacturaSchema` in schemas.ts).  Amount fields use
`Valor` because `limpiarMonto` defensively accepts `string | number`. -/
structure Factura where
  rutProveedor : String
  razonSocial : String
  numeroFactura : String
  fechaEmision : String
  montoNeto : Valor
  iva : Valor
  montoTotal : Valor
  descripcionServicio : String
deriving DecidableEq, Repr

/-- Purchase-order record (`OrdenCompraSchema` in schemas.ts). -/
structure OrdenCompra where
  numeroOC : String
  rutProveedor : String
  razonSocial : String
  montoTotal : Valor
  itemPresupuestario : String
  descripcion : String
  fechaOC : String
deriving DecidableEq, Repr

/-- Goods-receipt record (`ActaRecepcionSchema` in schemas.ts). -/
structure ActaRecepcion where
  numeroActa : String
  rutProveedor : String
  montoRecepcionado : Valor
  fechaRecepcion : String
  descripcion : String
  conforme : Bool
deriving DecidableEq, Repr

/-- The combined extraction handed to the validator
(`ExtraccionCompletaSchema`). -/
structure ExtraccionCompleta where
  factura : Factura
  ordenCompra : OrdenCompra
  actaRecepcion : ActaRecepcion
deriving DecidableEq, Repr

/-- One constructor per `discrepancias.push(...)` site in validator.ts,
carrying the values the pushed message cites.  RUT mismatch messages
cite the original, non-normalized strings; amount messages cite the
parsed numeric values. -/
inductive Discrepancia where
  | rutFaltante
  | rutFacturaOC (rutFactura rutOC : String)
  | rutFacturaActa (rutFactura rutActa : String)
  | rutOCActa (rutOC rutActa : String)
  | montoFacturaInvalido
  | montoOCInvalido
  | montoRecepcionInvalido
  | facturaExcedeOC (montoFactura montoOC : Rat)
  | facturaExcedeRecepcion (montoFactura montoRecepcion : Rat)
  | facturaNoCoincideRecepcion (montoFactura montoRecepcion : Rat)
  | faltaItemPresupuestario
  | faltaNumeroFactura
  | faltaNumeroOC
  | faltaNumeroActa
  | recepcionNoConforme
  | faltaDescripcionServicio
  | faltaRazonSocial
  | faltaFechaEmision
  | faltaFechaRecepcion
deriving DecidableEq, Repr

/-- Result of rule 1: appended messages plus the `rutCoincide` flag. -/
structure ResultadoRUT where
  discrepancias : List Discrepancia
  rutCoincide : Bool
deriving DecidableEq, Repr

/-- `validarRUT` (validator.ts lines 91-130).  If any normalized RUT is
empty (`!rutFactura || !rutOC || !rutActa`), one missing-RUT message is
pushed and the rule returns `false` without comparing; otherwise the
three pairwise comparisons run in source order, each mismatch pushing a
message that cites the original strings and clearing `coincide`. -/
def validarRUT (datos : ExtraccionCompleta) : ResultadoRUT :=
  let rutFactura := normalizarRUT datos.factura.rutProveedor
  let rutOC := normalizarRUT datos.ordenCompra.rutProveedor
  let rutActa := normalizarRUT datos.actaRecepcion.rutProveedor
  if rutFactura = "" ∨ rutOC = "" ∨ rutActa = "" then
    { discrepancias := [Discrepancia.rutFaltante], rutCoincide := false }
  else
    { discrepancias :=
        (if rutFactura ≠ rutOC then
          [Discrepancia.rutFacturaOC datos.factura.rutProveedor
            datos.ordenCompra.rutProveedor] else []) ++
        (if rutFactura ≠ rutActa then
          [Discrepancia.rutFacturaActa datos.factura.rutProveedor
            datos.actaRecepcion.rutProveedor] else []) ++
        (if rutOC ≠ rutActa then
          [Discrepancia.rutOCActa datos.ordenCompra.rutProveedor
            datos.actaRecepcion.rutProveedor] else [])
      rutCoincide :=
        decide (rutFactura = rutOC) && decide (rutFactura = rutActa) &&
          decide (rutOC = rutActa) }

/-- Result of rule 2: appended messages plus the two amount flags. -/
structure ResultadoMontos where
  discrepancias : List Discrepancia
  montosCoinciden : Bool
  montoOCSuficiente : Bool
deriving DecidableEq, Repr

/-- `validarMontos` (validator.ts lines 137-194).  The source mutates
two flags initialized to `true`: an unparseable invoice or receipt
amount clears `montosCoinciden`, an unparseable order amount clears
`montoOCSuficiente` (lines 149-164), and the three numeric comparisons
run only when all three amounts are valid (line 167).  The first match
arm is that all-valid comparison pass; the second arm collapses the
remaining cases, where only the `isNaN` pushes and flag clearings can
fire. -/
def validarMontos (datos : ExtraccionCompleta) : ResultadoMontos :=
  let montoFactura := limpiarMonto datos.factura.montoTotal
  let montoOC := limpiarMonto datos.ordenCompra.montoTotal
  let montoRecepcion := limpiarMonto datos.actaRecepcion.montoRecepcionado
  match montoFactura, montoOC, montoRecepcion with
  | JSNum.val f, JSNum.val oc, JSNum.val r =>
      { discrepancias :=
          (if f > oc then [Discrepancia.facturaExcedeOC f oc] else []) ++
          (if f > r then [Discrepancia.facturaExcedeRecepcion f r] else []) ++
          (if f ≠ r then [Discrepancia.facturaNoCoincideRecepcion f r] else [])
        montosCoinciden := !(decide (f > r) || decide (f ≠ r))
        montoOCSuficiente := !decide (f > oc) }
  | _, _, _ =>
      { discrepancias :=
          (if esNaN montoFactura then [Discrepancia.montoFacturaInvalido] else []) ++
          (if esNaN montoOC then [Discrepancia.montoOCInvalido] else []) ++
          (if esNaN montoRecepcion then [Discrepancia.montoRecepcionInvalido] else [])
        montosCoinciden := !(esNaN montoFactura || esNaN montoRecepcion)
        montoOCSuficiente := !esNaN montoOC }

/-- Result of rule 3: appended messages plus the two integrity flags. -/
structure ResultadoIntegridad where
  discrepancias : List Discrepancia
  descripcionConsistente : Bool
  recepcionConforme : Bool
deriving DecidableEq, Repr

/-- `validarIntegridad` (validator.ts lines 200-258): one message per
missing required field, in source order (3a-3h); `recepcionConforme`
is cleared exactly when `conforme !== true`, and
`descripcionConsistente` exactly when the invoice description is
missing. -/
def validarIntegridad (datos : ExtraccionCompleta) : ResultadoIntegridad :=
  { discrepancias :=
      (if !tieneDato datos.ordenCompra.itemPresupuestario then
        [Discrepancia.faltaItemPresupuestario] else []) ++
      (if !tieneDato datos.factura.numeroFactura then
        [Discrepancia.faltaNumeroFactura] else []) ++
      (if !tieneDato datos.ordenCompra.numeroOC then
        [Discrepancia.faltaNumeroOC] else []) ++
      (if !tieneDato datos.actaRecepcion.numeroActa then
        [Discrepancia.faltaNumeroActa] else []) ++
      (if datos.actaRecepcion.conforme ≠ true then
        [Discrepancia.recepcionNoConforme] else []) ++
      (if !tieneDato datos.factura.descripcionServicio then
        [Discrepancia.faltaDescripcionServicio] else []) ++
      (if !tieneDato datos.factura.razonSocial then
        [Discrepancia.faltaRazonSocial] else []) ++
      (if !tieneDato datos.factura.fechaEmision then
        [Discrepancia.faltaFechaEmision] else []) ++
      (if !tieneDato datos.actaRecepcion.fechaRecepcion then
        [Discrepancia.faltaFechaRecepcion] else [])
    descripcionConsistente := tieneDato datos.factura.descripcionServicio
    recepcionConforme := datos.actaRecepcion.conforme }

/-- `EstadoValidacionEnum` of schemas.ts. -/
inductive EstadoValidacion where
  | APROBADO
  | REPARO
deriving DecidableEq, Repr

/-- `CheckValidacionSchema` of schemas.ts: the five boolean checks plus
the echoed budget-line reference. -/
structure CheckValidacion where
  rutCoincide : Bool
  montosCoinciden : Bool
  montoOCSuficiente : Bool
  descripcionConsistente : Bool
  recepcionConforme : Bool
  itemPresupuestario : String
deriving DecidableEq, Repr

/-- `ResultadoValidacionSchema` of schemas.ts. -/
structure ResultadoValidacion where
  estado : EstadoValidacion
  checks : CheckValidacion
  discrepancias : List Discrepancia
  fechaValidacion : String
deriving DecidableEq, Repr

/-- `validarResolucion` (validator.ts lines 276-326): run the three
rules in order, concatenate their appended messages, assemble the
checklist (the echoed `itemPresupuestario` falls back to
`"(No informado)"` when the field is the empty string, via JavaScript
`||`), and derive the verdict from emptiness of the discrepancy list.
The wall-clock timestamp is passed in explicitly; the console logging
of the source has no effect on the returned value and is not
modelled. -/
def validarResolucion (datos : ExtraccionCompleta)
    (fechaValidacion : String) : ResultadoValidacion :=
  let resRUT := validarRUT datos
  let resMontos := validarMontos datos
  let resIntegridad := validarIntegridad datos
  let discrepancias :=
    resRUT.discrepancias ++ resMontos.discrepancias ++
      resIntegridad.discrepancias
  { estado :=
      if discrepancias.length = 0 then EstadoValidacion.APROBADO
      else EstadoValidacion.REPARO
    checks :=
      { rutCoincide := resRUT.rutCoincide
        montosCoinciden := resMontos.montosCoinciden
        montoOCSuficiente := resMontos.montoOCSuficiente
        descripcionConsistente := resIntegridad.descripcionConsistente
        recepcionConforme := resIntegridad.recepcionConforme
        itemPresupuestario :=
          if datos.ordenCompra.itemPresupuestario = "" then "(No informado)"
          else datos.ordenCompra.itemPresupuestario }
    discrepancias := discrepancias
    fechaValidacion := fechaValidacion }

/-! ### Concrete inputs used by witnesses and counterexamples

`datosBase` is the fully consistent triple of Scenario A of the spec:
matching RUTs (in different punctuation variants), invoice total
1 190 000 = receipt total ≤ order total 1 500 000, receipt conforming,
every required field present.  The variants below perturb exactly one
field. -/

def facturaBase : Factura :=
  { rutProveedor := "76.123.456-7"
    razonSocial := "Proveedor SpA"
    numeroFactura := "F-100"
    fechaEmision := "2024-01-10"
    montoNeto := Valor.num (JSNum.val 1000000)
    iva := Valor.num (JSNum.val 190000)
    montoTotal := Valor.num (JSNum.val 1190000)
    descripcionServicio := "Servicio de soporte" }

def ordenBase : OrdenCompra :=
  { numeroOC := "OC-200"
    rutProveedor := "76123456-7"
    razonSocial := "Proveedor SpA"
    montoTotal := Valor.num (JSNum.val 1500000)
    itemPresupuestario := "Subtitulo 22, Item 04"
    descripcion := "Soporte"
    fechaOC := "2024-01-05" }

def actaBase : ActaRecepcion :=
  { numeroActa := "A-300"
    rutProveedor := "76.123.456-7"
    montoRecepcionado := Valor.num (JSNum.val 1190000)
    fechaRecepcion := "2024-01-12"
    descripcion := "Soporte"
    conforme := true }

def datosBase : ExtraccionCompleta :=
  { factura := facturaBase, ordenCompra := ordenBase, actaRecepcion := actaBase }

/-- `datosBase` with the invoice RUT blank. -/
def datosSinRUT : ExtraccionCompleta :=
  { datosBase with factura := { facturaBase with rutProveedor := "" } }

/-- `datosBase` with an unparseable invoice total. -/
def datosFacturaInvalida : ExtraccionCompleta :=
  { datosBase with factura := { facturaBase with montoTotal := Valor.str "abc" } }

/-- Invoice total 2 000 000 exceeds the order total 1 500 000, but the
receipt-acknowledged amount is unparseable. -/
def datosRecepcionInvalida : ExtraccionCompleta :=
  { datosBase with
    factura := { facturaBase with montoTotal := Valor.num (JSNum.val 2000000) }
    actaRecepcion := { actaBase with montoRecepcionado := Valor.str "abc" } }

/-- `datosBase` with a non-conforming receipt. -/
def datosNoConforme : ExtraccionCompleta :=
  { datosBase with actaRecepcion := { actaBase with conforme := false } }

/-- `datosBase` with an empty budget line item. -/
def datosItemVacio : ExtraccionCompleta :=
  { datosBase with ordenCompra := { ordenBase with itemPresupuestario := "" } }

/-! ### Helper lemmas -/

/-- The discrepancy list of a validation run is the concatenation of the
lists appended by the three rules, in rule order. -/
lemma discrepancias_de_validarResolucion (datos : ExtraccionCompleta)
    (fecha : String) :
    (validarResolucion datos fecha).discrepancias =
      (validarRUT datos).discrepancias ++ (validarMontos datos).discrepancias ++
        (validarIntegridad datos).discrepancias := rfl

/-- The verdict is `APROBADO` exactly on an empty discrepancy list. -/
lemma estado_aprobado_iff (datos : ExtraccionCompleta) (fecha : String) :
    (validarResolucion datos fecha).estado = EstadoValidacion.APROBADO ↔
      (validarResolucion datos fecha).discrepancias = [] := by
  show (if ((validarRUT datos).discrepancias ++ (validarMontos datos).discrepancias ++
      (validarIntegridad datos).discrepancias).length = 0 then EstadoValidacion.APROBADO
      else EstadoValidacion.REPARO) = EstadoValidacion.APROBADO ↔ _
  rw [discrepancias_de_validarResolucion]
  split
  next h => simp_all [List.length_eq_zero]
  next h => simp_all [List.length_eq_zero]

/-! ### C1 — verdict derived from discrepancy emptiness -/

/-- C1: for every input triple (and timestamp), the verdict is
`APROBADO` iff the returned discrepancy list is empty, and `REPARO` iff
it is non-empty. -/
theorem c1_estado_sii_discrepancias_vacias (datos : ExtraccionCompleta)
    (fecha : String) :
    ((validarResolucion datos fecha).estado = EstadoValidacion.APROBADO ↔
      (validarResolucion datos fecha).discrepancias = []) ∧
    ((validarResolucion datos fecha).estado = EstadoValidacion.REPARO ↔
      (validarResolucion datos fecha).discrepancias ≠ []) := by
  refine ⟨estado_aprobado_iff datos fecha, ?_⟩
  have h := estado_aprobado_iff datos fecha
  cases he : (validarResolucion datos fecha).estado <;> simp_all

/-! ### C7 — totality of the validator -/

/-- C7: on every well-typed input triple the validator terminates with a
`ResultadoValidacion` (it is a total function of its inputs — the
embedding has no error/exception outcome), whose verdict is one of the
two enum values and whose timestamp is the one stamped at aggregation
time. -/
theorem c7_validacion_total (datos : ExtraccionCompleta) (fecha : String) :
    ∃ r : ResultadoValidacion, validarResolucion datos fecha = r ∧
      (r.estado = EstadoValidacion.APROBADO ∨
        r.estado = EstadoValidacion.REPARO) ∧
      r.fechaValidacion = fecha := by
  refine ⟨validarResolucion datos fecha, rfl, ?_, rfl⟩
  cases he : (validarResolucion datos fecha).estado
  · exact Or.inl rfl
  · exact Or.inr rfl

/-- C7 witness: the totality statement applied to the concrete
Scenario-A input. -/
theorem c7_testigo :
    ∃ r : ResultadoValidacion, validarResolucion datosBase "2024-01-15" = r ∧
      (r.estado = EstadoValidacion.APROBADO ∨
        r.estado = EstadoValidacion.REPARO) ∧
      r.fechaValidacion = "2024-01-15" :=
  c7_validacion_total datosBase "2024-01-15"

/-! ### C8 — amount normalization -/

/-- C8: `limpiarMonto` returns numeric inputs unchanged (in particular
`1190000 ↦ 1190000`), parses the locale-formatted string
`"$1.190.000"` to `1190000`, and maps the unparseable string `"abc"` to
the `NaN` sentinel; being a total function, it never throws. -/
theorem c8_limpiarMonto :
    (∀ n : JSNum, limpiarMonto (Valor.num n) = n) ∧
    limpiarMonto (Valor.num (JSNum.val 1190000)) = JSNum.val 1190000 ∧
    limpiarMonto (Valor.str "$1.190.000") = JSNum.val 1190000 ∧
    limpiarMonto (Valor.str "abc") = JSNum.nan := by
  refine ⟨fun n => rfl, rfl, ?_, ?_⟩ <;> decide

/-! ### C10 — the echoed budget line item -/

/-- C10 counterexample: with an empty `itemPresupuestario` on the
purchase order, the echoed checklist field is the placeholder
`"(No informado)"`, not the field exactly as provided. -/
theorem c10_contraejemplo :
    (validarResolucion datosItemVacio "t").checks.itemPresupuestario ≠
      datosItemVacio.ordenCompra.itemPresupuestario := by
  decide

/-- C10 amended: the echoed checklist field equals the purchase order's
`itemPresupuestario` when that field is a non-empty string, and the
placeholder `"(No informado)"` when it is empty (JavaScript `||`). -/
theorem c10_item_presupuestario (datos : ExtraccionCompleta) (fecha : String) :
    (validarResolucion datos fecha).checks.itemPresupuestario =
      (if datos.ordenCompra.itemPresupuestario = "" then "(No informado)"
       else datos.ordenCompra.itemPresupuestario) := rfl

/-! ### C9 — identifier normalization: character-level lemmas -/

/-- Code points below the surrogate range round-trip through
`Char.ofNat`. -/
lemma toNat_charOfNat {n : Nat} (h : n < 55296) : (Char.ofNat n).toNat = n := by
  have hv : n.isValidChar := Or.inl h
  rw [Char.ofNat, dif_pos hv]
  rfl

/-- Unfolding of `Char.toLower` into its code-point test. -/
lemma toLower_def (c : Char) :
    Char.toLower c =
      if c.toNat ≥ 65 ∧ c.toNat ≤ 90 then Char.ofNat (c.toNat + 32) else c := rfl

/-- Lowercasing an ASCII uppercase letter adds 32 to its code point. -/
lemma toLower_toNat_mayuscula {c : Char} (h : c.toNat ≥ 65 ∧ c.toNat ≤ 90) :
    (Char.toLower c).toNat = c.toNat + 32 := by
  rw [toLower_def, if_pos h, toNat_charOfNat (by omega)]

/-- `Char.toLower` is idempotent. -/
lemma toLower_idempotente (c : Char) :
    Char.toLower (Char.toLower c) = Char.toLower c := by
  by_cases h : c.toNat ≥ 65 ∧ c.toNat ≤ 90
  · have h2 := toLower_toNat_mayuscula h
    rw [toLower_def (Char.toLower c), if_neg (by omega)]
  · have h1 : Char.toLower c = c := by rw [toLower_def, if_neg h]
    rw [h1]
    exact h1

/-- The characters removed by the `normalizarRUT` cleaning chain. -/
def esMalo (c : Char) : Bool := c = '.' || c = '-' || esEspacio c

/-- A character with code point at least 97 is not one of the removed
characters (all of which have code points below 65). -/
lemma no_malo_de_toNat {d : Char} (hd : 97 ≤ d.toNat) : esMalo d = false := by
  simp only [esMalo, esEspacio, Bool.or_eq_false_iff, decide_eq_false_iff_not]
  repeat' apply And.intro
  all_goals
    intro he
    subst he
    revert hd
    decide

/-- `Char.toLower` never introduces one of the removed characters. -/
lemma toLower_no_malo {c : Char} (h : esMalo c = false) :
    esMalo (Char.toLower c) = false := by
  by_cases hc : c.toNat ≥ 65 ∧ c.toNat ≤ 90
  · exact no_malo_de_toNat (by rw [toLower_toNat_mayuscula hc]; omega)
  · rwa [toLower_def, if_neg hc]

/-! ### C9 — identifier normalization: list-level lemmas -/

/-- `trimLista` only removes elements. -/
lemma trimLista_subconjunto {l : List Char} : trimLista l ⊆ l := by
  intro c hc
  rw [trimLista, List.mem_reverse] at hc
  have hc2 := (List.dropWhile_sublist esEspacio).subset hc
  rw [List.mem_reverse] at hc2
  exact (List.dropWhile_sublist esEspacio).subset hc2

/-- `dropWhile` is the identity on a list with no matching element. -/
lemma dropWhile_sin_espacios {l : List Char}
    (h : ∀ c ∈ l, esEspacio c = false) : l.dropWhile esEspacio = l := by
  cases l with
  | nil => rfl
  | cons a as =>
      rw [List.dropWhile_cons, if_neg]
      simp [h a (List.mem_cons_self a as)]

/-- `trimLista` is the identity on a whitespace-free list. -/
lemma trimLista_sin_espacios {l : List Char}
    (h : ∀ c ∈ l, esEspacio c = false) : trimLista l = l := by
  rw [trimLista, dropWhile_sin_espacios h,
    dropWhile_sin_espacios (fun c hc => h c (List.mem_reverse.mp hc)),
    List.reverse_reverse]

/-- Mapping a function that fixes every element is the identity. -/
lemma map_identidad {l : List Char} {f : Char → Char}
    (h : ∀ c ∈ l, f c = c) : l.map f = l := by
  induction l with
  | nil => rfl
  | cons a as ih =>
      rw [List.map_cons, h a (List.mem_cons_self a as),
        ih (fun c hc => h c (List.mem_cons_of_mem a hc))]

/-- Every character surviving `normalizarLista` is outside the removed
class and already lowercase. -/
lemma normalizarLista_buenos {l : List Char} {c : Char}
    (hc : c ∈ normalizarLista l) :
    esMalo c = false ∧ Char.toLower c = c := by
  have h1 := trimLista_subconjunto hc
  rw [List.mem_map] at h1
  obtain ⟨c₀, hc₀, rfl⟩ := h1
  simp only [List.mem_filter, decide_eq_true_eq, Bool.not_eq_true'] at hc₀
  have hmalo : esMalo c₀ = false := by
    simp only [esMalo, Bool.or_eq_false_iff, decide_eq_false_iff_not]
    exact ⟨⟨hc₀.1.1.2, hc₀.1.2⟩, hc₀.2⟩
  exact ⟨toLower_no_malo hmalo, toLower_idempotente c₀⟩

/-- `normalizarLista` is idempotent. -/
lemma normalizarLista_idempotente (l : List Char) :
    normalizarLista (normalizarLista l) = normalizarLista l := by
  have hb := fun c hc => normalizarLista_buenos (l := l) (c := c) hc
  have hmalo : ∀ c ∈ normalizarLista l, esMalo c = false := fun c hc => (hb c hc).1
  have hpunto : List.filter (fun c => decide (c ≠ '.')) (normalizarLista l) =
      normalizarLista l := by
    rw [List.filter_eq_self]
    intro a ha
    have := hmalo a ha
    simp only [esMalo, Bool.or_eq_false_iff, decide_eq_false_iff_not] at this
    simp [this.1.1]
  have hguion : List.filter (fun c => decide (c ≠ '-')) (normalizarLista l) =
      normalizarLista l := by
    rw [List.filter_eq_self]
    intro a ha
    have := hmalo a ha
    simp only [esMalo, Bool.or_eq_false_iff, decide_eq_false_iff_not] at this
    simp [this.1.2]
  have hespacio : List.filter (fun c => !esEspacio c) (normalizarLista l) =
      normalizarLista l := by
    rw [List.filter_eq_self]
    intro a ha
    have := hmalo a ha
    simp only [esMalo, Bool.or_eq_false_iff, decide_eq_false_iff_not] at this
    simp [this.2]
  have hespacio2 : ∀ c ∈ normalizarLista l, esEspacio c = false := by
    intro c hc
    have := hmalo c hc
    simp only [esMalo, Bool.or_eq_false_iff, decide_eq_false_iff_not] at this
    exact this.2
  show trimLista ((((List.filter _ (normalizarLista l)).filter _).filter _).map
    Char.toLower) = normalizarLista l
  rw [hpunto, hguion, hespacio, map_identidad (fun c hc => (hb c hc).2),
    trimLista_sin_espacios hespacio2]

/-- `normalizarRUT` is idempotent. -/
lemma normalizarRUT_idempotente (x : String) :
    normalizarRUT (normalizarRUT x) = normalizarRUT x := by
  by_cases hx : x = ""
  · subst hx; rfl
  · have hxdef : normalizarRUT x = String.mk (normalizarLista x.toList) := by
      show (if x = "" then "" else String.mk (normalizarLista x.toList)) = _
      rw [if_neg hx]
    by_cases hy : String.mk (normalizarLista x.toList) = ""
    · rw [hxdef, hy]
      rfl
    · rw [hxdef]
      have houter : normalizarRUT (String.mk (normalizarLista x.toList)) =
          String.mk (normalizarLista
            (String.mk (normalizarLista x.toList)).toList) := by
        show (if String.mk (normalizarLista x.toList) = "" then ""
          else String.mk (normalizarLista
            (String.mk (normalizarLista x.toList)).toList)) = _
        rw [if_neg hy]
      rw [houter]
      show String.mk (normalizarLista (normalizarLista x.toList)) = _
      rw [normalizarLista_idempotente]

/-! ### C9 claim -/

/-- C9: identifier normalization is idempotent on every string, is
insensitive to dot/hyphen punctuation (the two sample spellings of the
same RUT normalize identically), and maps empty input to the empty
string. -/
theorem c9_normalizarRUT :
    (∀ x : String, normalizarRUT (normalizarRUT x) = normalizarRUT x) ∧
    normalizarRUT "76.123.456-7" = normalizarRUT "76123456-7" ∧
    normalizarRUT "" = "" :=
  ⟨normalizarRUT_idempotente, by decide, rfl⟩

/-! ### C2 — the amount rules on three valid numbers -/

/-- C2: when the three amounts all parse to numbers `f` (invoice),
`oc` (order) and `r` (receipt): sufficiency is false iff `f > oc`, with
a discrepancy citing both values when it fails; consistency is false iff
`f ≠ r`; when `f > r` both the `exceeds` and the `not exactly equal`
messages fire; and an invoice total strictly below the order total with
a matching receipt causes no amount discrepancy at all. -/
theorem c2_regla_montos (datos : ExtraccionCompleta) (f oc r : Rat)
    (hf : limpiarMonto datos.factura.montoTotal = JSNum.val f)
    (hoc : limpiarMonto datos.ordenCompra.montoTotal = JSNum.val oc)
    (hr : limpiarMonto datos.actaRecepcion.montoRecepcionado = JSNum.val r) :
    ((validarMontos datos).montoOCSuficiente = false ↔ f > oc) ∧
    (f > oc →
      Discrepancia.facturaExcedeOC f oc ∈ (validarMontos datos).discrepancias) ∧
    ((validarMontos datos).montosCoinciden = false ↔ f ≠ r) ∧
    (f > r →
      Discrepancia.facturaExcedeRecepcion f r ∈
        (validarMontos datos).discrepancias ∧
      Discrepancia.facturaNoCoincideRecepcion f r ∈
        (validarMontos datos).discrepancias) ∧
    (f < oc → f = r →
      (validarMontos datos).discrepancias = [] ∧
      (validarMontos datos).montosCoinciden = true ∧
      (validarMontos datos).montoOCSuficiente = true) := by
  have hval : validarMontos datos =
      { discrepancias :=
          (if f > oc then [Discrepancia.facturaExcedeOC f oc] else []) ++
          (if f > r then [Discrepancia.facturaExcedeRecepcion f r] else []) ++
          (if f ≠ r then [Discrepancia.facturaNoCoincideRecepcion f r] else [])
        montosCoinciden := !(decide (f > r) || decide (f ≠ r))
        montoOCSuficiente := !decide (f > oc) } := by
    rw [validarMontos]
    rw [hf, hoc, hr]
  rw [hval]
  refine ⟨?_, ?_, ?_, ?_, ?_⟩
  · simp
  · intro h
    simp [h]
  · simp only [Bool.not_eq_false', Bool.or_eq_true, decide_eq_true_eq]
    constructor
    · rintro (h | h)
      · exact ne_of_gt h
      · exact h
    · exact Or.inr
  · intro h
    simp [h, ne_of_gt h]
  · intro hlt heq
    subst heq
    simp [not_lt_of_gt hlt, lt_irrefl]

/-- C2 witness: on the Scenario-A amounts (1 190 000 / 1 500 000 /
1 190 000) the amount rules emit no discrepancy and both checks hold. -/
theorem c2_testigo :
    (validarMontos datosBase).discrepancias = [] ∧
    (validarMontos datosBase).montosCoinciden = true ∧
    (validarMontos datosBase).montoOCSuficiente = true :=
  (c2_regla_montos datosBase 1190000 1500000 1190000 rfl rfl rfl).2.2.2.2
    (by norm_num) rfl

/-! ### C3 — unparseable amounts -/

/-- C3 counterexample: the claim fails on the code in two ways.  With an
unparseable invoice total (`"abc"`), the code leaves `montoOCSuficiente`
`true`, although the sufficiency check depends on the invoice amount.
With an unparseable receipt amount but a valid invoice total 2 000 000
exceeding the valid order total 1 500 000, the code also leaves
`montoOCSuficiente` `true` and emits no `exceeds the order` discrepancy:
not only the comparisons involving the invalid value are skipped — all
of them are. -/
theorem c3_contraejemplo :
    (esNaN (limpiarMonto datosFacturaInvalida.factura.montoTotal) = true ∧
     (validarMontos datosFacturaInvalida).montoOCSuficiente = true) ∧
    (esNaN (limpiarMonto
        datosRecepcionInvalida.actaRecepcion.montoRecepcionado) = true ∧
     limpiarMonto datosRecepcionInvalida.factura.montoTotal =
        JSNum.val 2000000 ∧
     limpiarMonto datosRecepcionInvalida.ordenCompra.montoTotal =
        JSNum.val 1500000 ∧
     (validarMontos datosRecepcionInvalida).montoOCSuficiente = true ∧
     Discrepancia.facturaExcedeOC 2000000 1500000 ∉
        (validarMontos datosRecepcionInvalida).discrepancias) := by
  decide

/-- C3 amended: an unparseable invoice total yields its named
discrepancy and clears amount consistency; an unparseable order total
yields its named discrepancy and clears amount sufficiency; an
unparseable receipt amount yields its named discrepancy and clears
amount consistency; whenever any of the three amounts is unparseable,
every numeric comparison is skipped (no comparison discrepancy is
emitted); and validation continues — the integrity rule still
contributes its checks to the final result. -/
theorem c3_montos_invalidos (datos : ExtraccionCompleta) :
    (esNaN (limpiarMonto datos.factura.montoTotal) = true →
      Discrepancia.montoFacturaInvalido ∈ (validarMontos datos).discrepancias ∧
      (validarMontos datos).montosCoinciden = false) ∧
    (esNaN (limpiarMonto datos.ordenCompra.montoTotal) = true →
      Discrepancia.montoOCInvalido ∈ (validarMontos datos).discrepancias ∧
      (validarMontos datos).montoOCSuficiente = false) ∧
    (esNaN (limpiarMonto datos.actaRecepcion.montoRecepcionado) = true →
      Discrepancia.montoRecepcionInvalido ∈
        (validarMontos datos).discrepancias ∧
      (validarMontos datos).montosCoinciden = false) ∧
    ((esNaN (limpiarMonto datos.factura.montoTotal) = true ∨
      esNaN (limpiarMonto datos.ordenCompra.montoTotal) = true ∨
      esNaN (limpiarMonto datos.actaRecepcion.montoRecepcionado) = true) →
      ∀ a b : Rat,
        Discrepancia.facturaExcedeOC a b ∉ (validarMontos datos).discrepancias ∧
        Discrepancia.facturaExcedeRecepcion a b ∉
          (validarMontos datos).discrepancias ∧
        Discrepancia.facturaNoCoincideRecepcion a b ∉
          (validarMontos datos).discrepancias) ∧
    (∀ fecha, (validarResolucion datos fecha).checks.descripcionConsistente =
      tieneDato datos.factura.descripcionServicio ∧
      (validarResolucion datos fecha).checks.recepcionConforme =
        datos.actaRecepcion.conforme) := by
  rw [validarMontos]
  cases hf : limpiarMonto datos.factura.montoTotal with
  | nan =>
      cases hoc : limpiarMonto datos.ordenCompra.montoTotal <;>
        cases hr : limpiarMonto datos.actaRecepcion.montoRecepcionado <;>
          simp [esNaN, hf, hoc, hr] <;> exact fun _ => ⟨rfl, rfl⟩
  | val f =>
      cases hoc : limpiarMonto datos.ordenCompra.montoTotal with
      | nan =>
          cases hr : limpiarMonto datos.actaRecepcion.montoRecepcionado <;>
            simp [esNaN, hf, hoc, hr] <;> exact fun _ => ⟨rfl, rfl⟩
      | val oc =>
          cases hr : limpiarMonto datos.actaRecepcion.montoRecepcionado with
          | nan => simp [esNaN, hf, hoc, hr]; exact fun _ => ⟨rfl, rfl⟩
          | val r => simp [esNaN, hf, hoc, hr]; exact fun _ => ⟨rfl, rfl⟩

/-- C3 witness: the amended statement applied to the concrete input with
the unparseable invoice total. -/
theorem c3_testigo :
    Discrepancia.montoFacturaInvalido ∈
      (validarMontos datosFacturaInvalida).discrepancias ∧
    (validarMontos datosFacturaInvalida).montosCoinciden = false :=
  (c3_montos_invalidos datosFacturaInvalida).1 (by decide)

/-! ### C4 — the identity-match rule -/

/-- C4: if any of the three normalized RUTs is empty, the rule appends
exactly the one missing-identifier discrepancy and returns false,
performing no pairwise comparison; otherwise the check is true iff all
three pairs agree, each mismatching pair contributes its own
discrepancy citing the two original (non-normalized) strings — and only
mismatching pairs do — the missing-identifier message never fires, and
full agreement leaves the list empty. -/
theorem c4_regla_rut (datos : ExtraccionCompleta) :
    ((normalizarRUT datos.factura.rutProveedor = "" ∨
      normalizarRUT datos.ordenCompra.rutProveedor = "" ∨
      normalizarRUT datos.actaRecepcion.rutProveedor = "") →
      validarRUT datos =
        { discrepancias := [Discrepancia.rutFaltante], rutCoincide := false }) ∧
    (normalizarRUT datos.factura.rutProveedor ≠ "" →
     normalizarRUT datos.ordenCompra.rutProveedor ≠ "" →
     normalizarRUT datos.actaRecepcion.rutProveedor ≠ "" →
      ((validarRUT datos).rutCoincide = true ↔
        (normalizarRUT datos.factura.rutProveedor =
            normalizarRUT datos.ordenCompra.rutProveedor ∧
         normalizarRUT datos.factura.rutProveedor =
            normalizarRUT datos.actaRecepcion.rutProveedor ∧
         normalizarRUT datos.ordenCompra.rutProveedor =
            normalizarRUT datos.actaRecepcion.rutProveedor)) ∧
      (Discrepancia.rutFacturaOC datos.factura.rutProveedor
          datos.ordenCompra.rutProveedor ∈ (validarRUT datos).discrepancias ↔
        normalizarRUT datos.factura.rutProveedor ≠
          normalizarRUT datos.ordenCompra.rutProveedor) ∧
      (Discrepancia.rutFacturaActa datos.factura.rutProveedor
          datos.actaRecepcion.rutProveedor ∈ (validarRUT datos).discrepancias ↔
        normalizarRUT datos.factura.rutProveedor ≠
          normalizarRUT datos.actaRecepcion.rutProveedor) ∧
      (Discrepancia.rutOCActa datos.ordenCompra.rutProveedor
          datos.actaRecepcion.rutProveedor ∈ (validarRUT datos).discrepancias ↔
        normalizarRUT datos.ordenCompra.rutProveedor ≠
          normalizarRUT datos.actaRecepcion.rutProveedor) ∧
      Discrepancia.rutFaltante ∉ (validarRUT datos).discrepancias ∧
      ((normalizarRUT datos.factura.rutProveedor =
          normalizarRUT datos.ordenCompra.rutProveedor ∧
        normalizarRUT datos.factura.rutProveedor =
          normalizarRUT datos.actaRecepcion.rutProveedor) →
        (validarRUT datos).discrepancias = [])) := by
  by_cases h : normalizarRUT datos.factura.rutProveedor = "" ∨
      normalizarRUT datos.ordenCompra.rutProveedor = "" ∨
      normalizarRUT datos.actaRecepcion.rutProveedor = ""
  · refine ⟨fun _ => ?_, fun h1 h2 h3 => absurd h (by simp [h1, h2, h3])⟩
    simp only [validarRUT]
    rw [if_pos h]
  · refine ⟨fun hcon => absurd hcon h, fun h1 h2 h3 => ?_⟩
    simp only [validarRUT]
    rw [if_neg h]
    by_cases m1 : normalizarRUT datos.factura.rutProveedor =
        normalizarRUT datos.ordenCompra.rutProveedor <;>
      by_cases m2 : normalizarRUT datos.factura.rutProveedor =
          normalizarRUT datos.actaRecepcion.rutProveedor <;>
        by_cases m3 : normalizarRUT datos.ordenCompra.rutProveedor =
            normalizarRUT datos.actaRecepcion.rutProveedor <;>
          simp_all

/-- C4 witness: with a blank invoice RUT the rule reports exactly the
missing-identifier discrepancy and fails; on the consistent base input
(whose three RUTs normalize identically) the check passes. -/
theorem c4_testigo :
    validarRUT datosSinRUT =
      { discrepancias := [Discrepancia.rutFaltante], rutCoincide := false } ∧
    (validarRUT datosBase).rutCoincide = true := by
  constructor
  · exact (c4_regla_rut datosSinRUT).1 (by decide)
  · exact ((c4_regla_rut datosBase).2 (by decide) (by decide) (by decide)).1.mpr
      (by decide)

/-! ### Helper lemmas for the integrity and conformity claims -/

/-- The verdict is `REPARO` exactly on a non-empty discrepancy list. -/
lemma estado_reparo_iff (datos : ExtraccionCompleta) (fecha : String) :
    (validarResolucion datos fecha).estado = EstadoValidacion.REPARO ↔
      (validarResolucion datos fecha).discrepancias ≠ [] := by
  have h := estado_aprobado_iff datos fecha
  cases he : (validarResolucion datos fecha).estado <;> simp_all

/-- Membership in a conditional singleton. -/
lemma mem_ite_singleton {a b : Discrepancia} {c : Prop} [Decidable c] :
    a ∈ (if c then [b] else []) ↔ c ∧ a = b := by
  split <;> simp_all

/-- A conditional singleton is empty iff its condition fails or never
fires. -/
lemma ite_singleton_eq_nil {α : Type} {c : Prop} [Decidable c] {a : α}
    (h : (if c then [a] else []) = []) : ¬c := by
  intro hc
  rw [if_pos hc] at h
  exact List.cons_ne_nil a [] h

/-- If the RUT rule appended nothing, its check passed. -/
lemma validarRUT_vacio {datos : ExtraccionCompleta}
    (h : (validarRUT datos).discrepancias = []) :
    (validarRUT datos).rutCoincide = true := by
  rw [validarRUT] at h ⊢
  by_cases hc : normalizarRUT datos.factura.rutProveedor = "" ∨
      normalizarRUT datos.ordenCompra.rutProveedor = "" ∨
      normalizarRUT datos.actaRecepcion.rutProveedor = ""
  · rw [if_pos hc] at h
    simp at h
  · rw [if_neg hc] at h ⊢
    simp only [List.append_eq_nil] at h
    obtain ⟨⟨h1, h2⟩, h3⟩ := h
    have e1 := ite_singleton_eq_nil h1
    have e2 := ite_singleton_eq_nil h2
    have e3 := ite_singleton_eq_nil h3
    simp only [ne_eq, not_not] at e1 e2 e3
    simp [e1, e2, e3]

/-- If the amount rule appended nothing, both amount checks passed. -/
lemma validarMontos_vacio {datos : ExtraccionCompleta}
    (h : (validarMontos datos).discrepancias = []) :
    (validarMontos datos).montosCoinciden = true ∧
      (validarMontos datos).montoOCSuficiente = true := by
  rw [validarMontos] at h ⊢
  revert h
  cases hf : limpiarMonto datos.factura.montoTotal <;>
    cases hoc : limpiarMonto datos.ordenCompra.montoTotal <;>
      cases hr : limpiarMonto datos.actaRecepcion.montoRecepcionado <;>
        · intro h
          simp only [List.append_eq_nil] at h
          obtain ⟨⟨h1, h2⟩, h3⟩ := h
          have e1 := ite_singleton_eq_nil h1
          have e2 := ite_singleton_eq_nil h2
          have e3 := ite_singleton_eq_nil h3
          simp_all [esNaN]

/-- The non-conformity message is never appended by the RUT rule. -/
lemma noConforme_fuera_de_rut (datos : ExtraccionCompleta) :
    Discrepancia.recepcionNoConforme ∉ (validarRUT datos).discrepancias := by
  rw [validarRUT]
  split
  · simp
  · simp [mem_ite_singleton]

/-- The non-conformity message is never appended by the amount rule. -/
lemma noConforme_fuera_de_montos (datos : ExtraccionCompleta) :
    Discrepancia.recepcionNoConforme ∉ (validarMontos datos).discrepancias := by
  rw [validarMontos]
  cases limpiarMonto datos.factura.montoTotal <;>
    cases limpiarMonto datos.ordenCompra.montoTotal <;>
      cases limpiarMonto datos.actaRecepcion.montoRecepcionado <;>
        simp [mem_ite_singleton]

/-- On a non-conforming receipt the integrity rule appends the
non-conformity message exactly once. -/
lemma cuenta_noConforme_integridad (datos : ExtraccionCompleta)
    (h : datos.actaRecepcion.conforme = false) :
    List.count Discrepancia.recepcionNoConforme
      (validarIntegridad datos).discrepancias = 1 := by
  rw [validarIntegridad]
  simp [List.count_append, h,
    apply_ite (List.count Discrepancia.recepcionNoConforme)]

/-- On a conforming receipt the integrity rule never appends the
non-conformity message. -/
lemma noConforme_fuera_de_integridad (datos : ExtraccionCompleta)
    (h : datos.actaRecepcion.conforme = true) :
    Discrepancia.recepcionNoConforme ∉
      (validarIntegridad datos).discrepancias := by
  rw [validarIntegridad]
  simp [mem_ite_singleton, h]

/-! ### C5 — receipt conformity -/

/-- C5: the `recepcionConforme` check is true exactly when the
receipt's `conforme` field is `true`; a non-conforming receipt puts
exactly one non-conformity discrepancy in the result, while a
conforming one puts none; and on an input that would otherwise be
approved, a non-conforming receipt yields verdict `REPARO` whose
discrepancy list is exactly that single message, with every other
check still true. -/
theorem c5_conformidad (datos : ExtraccionCompleta) (fecha : String) :
    ((validarResolucion datos fecha).checks.recepcionConforme =
      datos.actaRecepcion.conforme) ∧
    (datos.actaRecepcion.conforme = false →
      List.count Discrepancia.recepcionNoConforme
        (validarResolucion datos fecha).discrepancias = 1) ∧
    (datos.actaRecepcion.conforme = true →
      Discrepancia.recepcionNoConforme ∉
        (validarResolucion datos fecha).discrepancias) ∧
    ((validarResolucion { datos with actaRecepcion :=
        { datos.actaRecepcion with conforme := true } } fecha).estado =
          EstadoValidacion.APROBADO →
      datos.actaRecepcion.conforme = false →
      (validarResolucion datos fecha).estado = EstadoValidacion.REPARO ∧
      (validarResolucion datos fecha).discrepancias =
        [Discrepancia.recepcionNoConforme] ∧
      (validarResolucion datos fecha).checks.rutCoincide = true ∧
      (validarResolucion datos fecha).checks.montosCoinciden = true ∧
      (validarResolucion datos fecha).checks.montoOCSuficiente = true ∧
      (validarResolucion datos fecha).checks.descripcionConsistente = true ∧
      (validarResolucion datos fecha).checks.recepcionConforme = false) := by
  refine ⟨rfl, ?_, ?_, ?_⟩
  · intro hfalse
    rw [discrepancias_de_validarResolucion, List.count_append,
      List.count_append,
      List.count_eq_zero.mpr (noConforme_fuera_de_rut datos),
      List.count_eq_zero.mpr (noConforme_fuera_de_montos datos),
      cuenta_noConforme_integridad datos hfalse]
  · intro htrue
    rw [discrepancias_de_validarResolucion]
    simp only [List.mem_append]
    rintro ((hm | hm) | hm)
    · exact noConforme_fuera_de_rut datos hm
    · exact noConforme_fuera_de_montos datos hm
    · exact noConforme_fuera_de_integridad datos htrue hm
  · intro hap hfalse
    rw [estado_aprobado_iff, discrepancias_de_validarResolucion] at hap
    simp only [List.append_eq_nil] at hap
    obtain ⟨⟨hrut, hmon⟩, hint⟩ := hap
    have hrutd : (validarRUT datos).discrepancias = [] := hrut
    have hmond : (validarMontos datos).discrepancias = [] := hmon
    rw [validarIntegridad] at hint
    dsimp only at hint
    simp only [List.append_eq_nil] at hint
    obtain ⟨⟨⟨⟨⟨⟨⟨⟨i1, i2⟩, i3⟩, i4⟩, i5⟩, i6⟩, i7⟩, i8⟩, i9⟩ := hint
    have t1 : tieneDato datos.ordenCompra.itemPresupuestario = true := by
      have := ite_singleton_eq_nil i1; simpa using this
    have t2 : tieneDato datos.factura.numeroFactura = true := by
      have := ite_singleton_eq_nil i2; simpa using this
    have t3 : tieneDato datos.ordenCompra.numeroOC = true := by
      have := ite_singleton_eq_nil i3; simpa using this
    have t4 : tieneDato datos.actaRecepcion.numeroActa = true := by
      have := ite_singleton_eq_nil i4; simpa using this
    have t6 : tieneDato datos.factura.descripcionServicio = true := by
      have := ite_singleton_eq_nil i6; simpa using this
    have t7 : tieneDato datos.factura.razonSocial = true := by
      have := ite_singleton_eq_nil i7; simpa using this
    have t8 : tieneDato datos.factura.fechaEmision = true := by
      have := ite_singleton_eq_nil i8; simpa using this
    have t9 : tieneDato datos.actaRecepcion.fechaRecepcion = true := by
      have := ite_singleton_eq_nil i9; simpa using this
    have hlist : (validarResolucion datos fecha).discrepancias =
        [Discrepancia.recepcionNoConforme] := by
      rw [discrepancias_de_validarResolucion, hrutd, hmond, validarIntegridad]
      simp [t1, t2, t3, t4, t6, t7, t8, t9, hfalse]
    refine ⟨?_, hlist, validarRUT_vacio hrutd, (validarMontos_vacio hmond).1,
      (validarMontos_vacio hmond).2, t6, hfalse⟩
    rw [estado_reparo_iff, hlist]
    simp

/-- C5 witness: on the base input with `conforme := false` the verdict
is `REPARO`, the discrepancy list is exactly the non-conformity
message, and every other check remains true. -/
theorem c5_testigo :
    (validarResolucion datosNoConforme "t").estado = EstadoValidacion.REPARO ∧
    (validarResolucion datosNoConforme "t").discrepancias =
      [Discrepancia.recepcionNoConforme] ∧
    (validarResolucion datosNoConforme "t").checks.rutCoincide = true ∧
    (validarResolucion datosNoConforme "t").checks.montosCoinciden = true ∧
    (validarResolucion datosNoConforme "t").checks.montoOCSuficiente = true ∧
    (validarResolucion datosNoConforme "t").checks.descripcionConsistente =
      true ∧
    (validarResolucion datosNoConforme "t").checks.recepcionConforme = false :=
  (c5_conformidad datosNoConforme "t").2.2.2 (by decide) rfl

/-! ### C6 — the integrity rule -/

/-- C6: the integrity rule appends one discrepancy per missing required
field — budget line item, invoice number, order number, receipt number,
counterparty name, invoice-emission date, receipt date, service
description — each present in the output iff its own field is missing,
independently of all the others; among these only the invoice's own
service description drives a boolean check (`descripcionConsistente`,
with no cross-document comparison); and blanking the order number flags
the verdict while leaving the identity and the two amount checks
exactly as they were. -/
theorem c6_integridad (datos : ExtraccionCompleta) (fecha : String) :
    (Discrepancia.faltaItemPresupuestario ∈
        (validarIntegridad datos).discrepancias ↔
      tieneDato datos.ordenCompra.itemPresupuestario = false) ∧
    (Discrepancia.faltaNumeroFactura ∈
        (validarIntegridad datos).discrepancias ↔
      tieneDato datos.factura.numeroFactura = false) ∧
    (Discrepancia.faltaNumeroOC ∈ (validarIntegridad datos).discrepancias ↔
      tieneDato datos.ordenCompra.numeroOC = false) ∧
    (Discrepancia.faltaNumeroActa ∈ (validarIntegridad datos).discrepancias ↔
      tieneDato datos.actaRecepcion.numeroActa = false) ∧
    (Discrepancia.faltaRazonSocial ∈ (validarIntegridad datos).discrepancias ↔
      tieneDato datos.factura.razonSocial = false) ∧
    (Discrepancia.faltaFechaEmision ∈ (validarIntegridad datos).discrepancias ↔
      tieneDato datos.factura.fechaEmision = false) ∧
    (Discrepancia.faltaFechaRecepcion ∈
        (validarIntegridad datos).discrepancias ↔
      tieneDato datos.actaRecepcion.fechaRecepcion = false) ∧
    (Discrepancia.faltaDescripcionServicio ∈
        (validarIntegridad datos).discrepancias ↔
      tieneDato datos.factura.descripcionServicio = false) ∧
    ((validarIntegridad datos).descripcionConsistente =
      tieneDato datos.factura.descripcionServicio) ∧
    (∀ v : String,
      (validarResolucion { datos with ordenCompra :=
          { datos.ordenCompra with numeroOC := v } } fecha).checks.rutCoincide =
        (validarResolucion datos fecha).checks.rutCoincide ∧
      (validarResolucion { datos with ordenCompra :=
          { datos.ordenCompra with numeroOC := v } }
            fecha).checks.montosCoinciden =
        (validarResolucion datos fecha).checks.montosCoinciden ∧
      (validarResolucion { datos with ordenCompra :=
          { datos.ordenCompra with numeroOC := v } }
            fecha).checks.montoOCSuficiente =
        (validarResolucion datos fecha).checks.montoOCSuficiente ∧
      (tieneDato v = false →
        (validarResolucion { datos with ordenCompra :=
            { datos.ordenCompra with numeroOC := v } } fecha).estado =
          EstadoValidacion.REPARO)) := by
  refine ⟨?_, ?_, ?_, ?_, ?_, ?_, ?_, ?_, rfl, ?_⟩
  · rw [validarIntegridad]; simp [mem_ite_singleton]
  · rw [validarIntegridad]; simp [mem_ite_singleton]
  · rw [validarIntegridad]; simp [mem_ite_singleton]
  · rw [validarIntegridad]; simp [mem_ite_singleton]
  · rw [validarIntegridad]; simp [mem_ite_singleton]
  · rw [validarIntegridad]; simp [mem_ite_singleton]
  · rw [validarIntegridad]; simp [mem_ite_singleton]
  · rw [validarIntegridad]; simp [mem_ite_singleton]
  · intro v
    refine ⟨rfl, rfl, rfl, ?_⟩
    intro hv
    rw [estado_reparo_iff]
    apply List.ne_nil_of_mem (a := Discrepancia.faltaNumeroOC)
    rw [discrepancias_de_validarResolucion]
    simp only [List.mem_append]
    right
    rw [validarIntegridad]
    dsimp only
    simp [mem_ite_singleton, hv]

/-- C6 witness: blanking the order number on the otherwise-approved base
input leaves the identity check unchanged and flags the verdict. -/
theorem c6_testigo :
    (validarResolucion { datosBase with ordenCompra :=
        { datosBase.ordenCompra with numeroOC := "" } }
          "t").checks.rutCoincide =
      (validarResolucion datosBase "t").checks.rutCoincide ∧
    (validarResolucion { datosBase with ordenCompra :=
        { datosBase.ordenCompra with numeroOC := "" } } "t").estado =
      EstadoValidacion.REPARO := by
  have h := ((c6_integridad datosBase "t").2.2.2.2.2.2.2.2.2) ""
  exact ⟨h.1, h.2.2.2 (by decide)⟩

end Sinapsis
